import Mathlib

/-!
Verification of the SafeHarbor Compliance Vault specification.

The repository ships the frontend (TypeScript) under `src/frontend`; the
vault core itself lives in the Python package `compliance_vault/` referenced
by the Dockerfile but not present in the source tree, so the Ledger Writer,
Chain Verifier, Retention Manager and Audit Pack Exporter are modelled here
from the specification text (sections 3, 4.1-4.4 of spec.md).  The frontend
API client (`src/frontend/src/lib/utils/api.ts`) and the Next.js middleware
(`src/frontend/src/middleware.ts`) are embedded directly from their sources.

Hashes are modelled as natural numbers produced by a fixed deterministic
mixing function standing in for SHA-256; none of the proved properties
depends on collision resistance, only on determinism of the hash.
-/

namespace SafeHarbor

/-! ## Hashing model -/

/-- Deterministic hash of a string: stands in for the byte-level hash input
encoding.  Any deterministic function works for the stated properties. -/
def strHash (s : String) : Nat :=
  s.toList.foldl (fun a c => a * 131 + c.toNat + 1) 7

/-- Deterministic two-argument mixing step used to fold the hashed fields
together, standing in for feeding them to SHA-256. -/
def mix (a b : Nat) : Nat :=
  a * 1000003 + b + 1

/-- Modelled from the spec: "a fixed tenant-unique genesis value" used as the
previous hash of sequence 1 (spec section 3; the exact seed is an open
question there, any fixed tenant-derived value satisfies the invariant). -/
def genesisHash (t : String) : Nat :=
  mix (strHash t) 0

/-- Modelled from the spec: entry_hash is "a cryptographic hash over tenant
id, sequence number, entry_type, canonical_payload, actor identifier,
timestamp, and previous_hash" (spec section 3). -/
def entryHashOf (t : String) (seq : Nat) (etype payload actor : String)
    (ts : Nat) (prev : Nat) : Nat :=
  mix (mix (mix (mix (mix (mix (strHash t) seq) (strHash etype))
    (strHash payload)) (strHash actor)) ts) prev

/-! ## Data model -/

/-- Modelled from the spec: VaultEntry (spec section 3), matching the
persisted shape in section 6 and the frontend type `VaultEntry`
(src/frontend/src/types/index.ts lines 185-194, where `previous_hash` is
nullable, hence `Option`).  Timestamps are modelled as naturals. -/
structure VaultEntry where
  tenant_id : String
  sequence_number : Nat
  entry_type : String
  canonical_payload : String
  actor_id : String
  created_at : Nat
  previous_hash : Option Nat
  entry_hash : Nat
  deriving DecidableEq

/-- Recompute an entry's hash "from stored fields" (spec section 4.2 check
(c)); the stored previous hash is unwrapped with default 0, which is only
reachable after check (b) has already ensured it is present. -/
def recomputeHash (t : String) (e : VaultEntry) : Nat :=
  entryHashOf t e.sequence_number e.entry_type e.canonical_payload
    e.actor_id e.created_at (e.previous_hash.getD 0)

/-! ## Ledger Writer (spec section 4.1) -/

/-- One domain event handed to append: entry type, already-canonicalized
payload, actor identity and creation timestamp.  Claims quantify over
successful appends, so the ValidationError path (payload that fails to
canonicalize) is outside the modelled data. -/
structure AppendRequest where
  entry_type : String
  payload : String
  actor : String
  timestamp : Nat
  deriving DecidableEq

/-- Hash of the last entry of the chain, or the given default when the chain
is empty. -/
def lastHashD (dflt : Nat) : List VaultEntry → Nat
  | [] => dflt
  | e :: rest => lastHashD e.entry_hash rest

/-- Modelled from the spec: append "allocates the next sequence number for
the tenant, computes previous_hash from the tenant's last committed entry
(or genesis if none), computes entry_hash, and persists the whole entry as a
single atomic unit" (spec section 4.1).  The tenant's committed chain is the
list of entries in ascending sequence order. -/
def appendEntry (t : String) (chain : List VaultEntry) (r : AppendRequest) :
    List VaultEntry :=
  let seq := chain.length + 1
  let prev := lastHashD (genesisHash t) chain
  chain ++ [{ tenant_id := t
              sequence_number := seq
              entry_type := r.entry_type
              canonical_payload := r.payload
              actor_id := r.actor
              created_at := r.timestamp
              previous_hash := some prev
              entry_hash := entryHashOf t seq r.entry_type r.payload
                r.actor r.timestamp prev }]

/-- The chain obtained by a sequence of successful appends for one tenant,
starting from the empty chain. -/
def buildChain (t : String) (reqs : List AppendRequest) : List VaultEntry :=
  reqs.foldl (appendEntry t) []

/-- Structural well-formedness of a chain segment: starting at sequence
`seq` with running previous hash `prev`, each entry links to the hash before
it, carries the expected sequence number, and stores the recomputable hash
of its own fields. -/
def chainOkFrom (t : String) (prev seq : Nat) : List VaultEntry → Prop
  | [] => True
  | e :: rest =>
      e.previous_hash = some prev ∧
      e.sequence_number = seq ∧
      e.entry_hash = entryHashOf t seq e.entry_type e.canonical_payload
        e.actor_id e.created_at prev ∧
      chainOkFrom t e.entry_hash (seq + 1) rest

/-- A persisted tenant chain is well-formed from genesis at sequence 1. -/
def WF (t : String) (chain : List VaultEntry) : Prop :=
  chainOkFrom t (genesisHash t) 1 chain

/-! ## Chain Verifier (spec section 4.2) -/

/-- The three break kinds reported by verification: sequence gap, previous
hash mismatch, recomputed hash mismatch. -/
inductive BreakKind where
  | gap
  | link
  | mutation
  deriving DecidableEq

/-- Modelled from the spec: verify result
`{is_valid, entries_checked, first_break_sequence?, break_kind?}`
(spec section 4.2; field names also visible in the frontend VaultPanel,
src/unnamed/part_007). -/
structure VerifyResult where
  is_valid : Bool
  entries_checked : Nat
  first_break_sequence : Option Nat
  break_kind : Option BreakKind
  deriving DecidableEq

/-- Modelled from the spec: the verification walk (spec section 4.2).  For
each entry in ascending order: (a) sequence continuity else a gap break,
(b) previous_hash against the running hash else a link break, (c) recomputed
entry_hash against the stored one else a mutation break, (d) on success
advance the running hash.  It halts at the first break, reporting that
entry's sequence number; `checked` counts the entries that passed (the count
reported at a break is not pinned down by the spec). -/
def verifyFrom (t : String) (expected running checked : Nat) :
    List VaultEntry → VerifyResult
  | [] => ⟨true, checked, none, none⟩
  | e :: rest =>
      if e.sequence_number ≠ expected then
        ⟨false, checked, some e.sequence_number, some BreakKind.gap⟩
      else if e.previous_hash ≠ some running then
        ⟨false, checked, some e.sequence_number, some BreakKind.link⟩
      else if recomputeHash t e ≠ e.entry_hash then
        ⟨false, checked, some e.sequence_number, some BreakKind.mutation⟩
      else
        verifyFrom t (expected + 1) e.entry_hash (checked + 1) rest

/-- Full-chain verification: running hash seeded from genesis, expected
sequence starting at 1. -/
def verifyChain (t : String) (chain : List VaultEntry) : VerifyResult :=
  verifyFrom t 1 (genesisHash t) 0 chain

/-- Seed of the running hash for a ranged verification: genesis when the
range starts at 1, otherwise the hash of the entry preceding `fromSeq`
(spec section 4.2). -/
def seedFor (t : String) (chain : List VaultEntry) (fromSeq : Nat) : Nat :=
  if fromSeq ≤ 1 then genesisHash t
  else
    match chain.find? (fun e => e.sequence_number = fromSeq - 1) with
    | some p => p.entry_hash
    | none => genesisHash t

/-- Modelled from the spec: `verify(tenant, [from_seq, to_seq])` fetches the
entries in range in ascending (stored) order and walks them with
`verifyFrom` (spec section 4.2). -/
def verifyRange (t : String) (chain : List VaultEntry)
    (fromSeq toSeq : Nat) : VerifyResult :=
  verifyFrom t fromSeq (seedFor t chain fromSeq) 0
    (chain.filter (fun e =>
      fromSeq ≤ e.sequence_number && e.sequence_number ≤ toSeq))

/-- Verification as an operation on the stored state: it returns the result
and the store, which it never mutates (spec: "Verification is read-only"). -/
def verifyOp (t : String) (store : List VaultEntry)
    (fromSeq toSeq : Nat) : VerifyResult × List VaultEntry :=
  (verifyRange t store fromSeq toSeq, store)

/-! ## Audit Pack Exporter (spec section 4.4) -/

/-- Modelled from the spec: export filter
`{date_range?, subject_id?, entry_types?}` (spec section 4.4).  Entries
carry no subject field and the spec leaves subject matching unspecified, so
the subject criterion is carried in the filter but matching uses the two
criteria the data model supports: creation date range and entry types. -/
structure ExportFilter where
  date_range : Option (Nat × Nat)
  subject_id : Option String
  entry_types : Option (List String)
  deriving DecidableEq

/-- Whether an entry matches the export filter. -/
def matchesFilter (f : ExportFilter) (e : VaultEntry) : Bool :=
  (match f.date_range with
   | none => true
   | some (lo, hi) => lo ≤ e.created_at && e.created_at ≤ hi) &&
  (match f.entry_types with
   | none => true
   | some ts => ts.contains e.entry_type)

/-- Aggregate manifest hash "over the ordered list of included entry hashes"
(spec section 4.4). -/
def aggregateHash (hs : List Nat) : Nat :=
  hs.foldl mix 11

/-- Modelled from the spec: the AuditPack manifest — tenant id, date range,
entry count, aggregate hash over included entry hashes, export timestamp,
exporting identity (spec section 3), plus the recorded outcome and location
of the full-chain verification, which the manifest must never suppress
(spec sections 4.4 and 7). -/
structure Manifest where
  tenant_id : String
  date_range : Option (Nat × Nat)
  entry_count : Nat
  aggregate_hash : Nat
  exported_at : Nat
  exported_by : String
  verification_valid : Bool
  verification_break_sequence : Option Nat
  verification_break_kind : Option BreakKind
  deriving DecidableEq

/-- Modelled from the spec: an AuditPack — manifest, included entries, and
the result of a full-chain verification run at export time (spec section 3). -/
structure AuditPack where
  manifest : Manifest
  entries : List VaultEntry
  verification : VerifyResult
  deriving DecidableEq

/-- Modelled from the spec: export first runs the Chain Verifier over the
tenant's entire chain, then selects the entries matching the filter and
computes the aggregate manifest hash over their hashes in order; when
verification fails the export still proceeds and the manifest records the
failure and its location (spec section 4.4). -/
def exportPack (t : String) (chain : List VaultEntry) (f : ExportFilter)
    (now : Nat) (who : String) : AuditPack :=
  let vr := verifyChain t chain
  let included := chain.filter (matchesFilter f)
  { manifest :=
      { tenant_id := t
        date_range := f.date_range
        entry_count := included.length
        aggregate_hash := aggregateHash (included.map (·.entry_hash))
        exported_at := now
        exported_by := who
        verification_valid := vr.is_valid
        verification_break_sequence := vr.first_break_sequence
        verification_break_kind := vr.break_kind }
    entries := included
    verification := vr }

/-! ## Retention Manager (spec section 4.3) -/

/-- Storage tier of a stored entry: the only thing retention may change. -/
inductive StorageTier where
  | hot
  | archived
  deriving DecidableEq

/-- A persisted record: the immutable vault entry plus the retention
metadata the Retention Manager may touch.  `legal_hold = none` models an
ambiguous hold status (spec: RetentionPolicyError, fails closed). -/
structure StoredEntry where
  entry : VaultEntry
  tier : StorageTier
  legal_hold : Option Bool
  deriving DecidableEq

/-- Modelled from the spec: archival eligibility — eligible once
`creation timestamp + retention period` has elapsed, never while under an
active legal hold regardless of age, and not eligible (fail closed) when
the hold status is ambiguous (spec section 4.3). -/
def eligibleForArchival (now retention : Nat) (s : StoredEntry) : Bool :=
  match s.legal_hold with
  | some true => false
  | none => false
  | some false => decide (s.entry.created_at + retention ≤ now)

/-- Modelled from the spec: `evaluate(tenant)` marks each not-yet-archived
eligible entry for the cold storage tier, "changes storage tier metadata
only, never the entry's content, hash, or position in the chain"
(spec section 4.3). -/
def evaluateRetention (now retention : Nat) (store : List StoredEntry) :
    List StoredEntry :=
  store.map (fun s =>
    if s.tier = StorageTier.hot && eligibleForArchival now retention s then
      { s with tier := StorageTier.archived }
    else s)

/-- The immutable view of a stored record: the fields claimed invariant
under retention evaluation. -/
def entryView (s : StoredEntry) : String × Nat × Option Nat × Nat :=
  (s.entry.canonical_payload, s.entry.entry_hash,
   s.entry.previous_hash, s.entry.sequence_number)

/-! ## Frontend API client (src/frontend/src/lib/utils/api.ts) -/

/-- Browser-side state seen by the API client: whether `window` is defined
and the value stored under the localStorage key `safeharbor_token`. -/
structure ClientState where
  windowDefined : Bool
  token : Option String
  deriving DecidableEq

/-- `getAuthToken` (api.ts lines 3-6): returns null outside the browser,
otherwise `localStorage.getItem("safeharbor_token")`. -/
def getAuthToken (st : ClientState) : Option String :=
  if st.windowDefined then st.token else none

/-- An HTTP response as `ApiClient.request` observes it: the status code,
whether the body parses as JSON, and the parsed body's optional `detail`
string (meaningful only when the body is JSON). -/
structure HttpResponse where
  status : Nat
  bodyIsJson : Bool
  bodyDetail : Option String
  deriving DecidableEq

/-- `Response.ok` of the Fetch API: status in the range 200-299. -/
def respOk (r : HttpResponse) : Bool :=
  decide (200 ≤ r.status ∧ r.status < 300)

/-- Outcome of one `request` call: resolve, or throw with a message. -/
inductive RequestOutcome where
  | success
  | failure (msg : String)
  deriving DecidableEq

/-- `ApiClient.request` error handling (api.ts lines 34-47), as a function
from client state and response to (outcome, new client state, whether the
response body was read).  On 401 it clears the stored token (browser only)
and throws before touching the body; on any other non-ok status it reads
the body and throws `detail` when that is a non-empty string (JS truthiness
of `error.detail ||`), else `API error: <status>`; on ok it reads and
returns the body. -/
def requestStep (st : ClientState) (resp : HttpResponse) :
    RequestOutcome × ClientState × Bool :=
  if resp.status = 401 then
    (RequestOutcome.failure "Authentication required",
     { st with token := if st.windowDefined then none else st.token },
     false)
  else if respOk resp then
    (RequestOutcome.success, st, true)
  else
    (RequestOutcome.failure
      (match (if resp.bodyIsJson then resp.bodyDetail else none) with
       | some d =>
           if d = "" then "API error: " ++ toString resp.status else d
       | none => "API error: " ++ toString resp.status),
     st, true)

/-! ## Next.js middleware (src/frontend/src/middleware.ts) -/

/-- Model of JavaScript `String.prototype.startsWith` on the path strings
involved (structural on the character lists so proofs can evaluate it). -/
def strStartsWith (s p : String) : Bool :=
  p.toList.isPrefixOf s.toList

/-- Model of JavaScript `String.prototype.includes(".")`. -/
def strContainsChar (s : String) (c : Char) : Bool :=
  s.toList.contains c

/-- What the middleware does with a request: pass it through or redirect. -/
inductive MwAction where
  | next
  | redirect (target : String)
  deriving DecidableEq

/-- The middleware of src/frontend/src/middleware.ts: static assets and API
routes pass through; `/`, `/login` and `/register` are redirected to
`/dashboard` ("Auth disabled" per its comment); everything else passes
through.  The cookie argument mirrors `request.cookies`, which this
middleware never consults (unlike the earlier variant in
src/unnamed/part_001, which checked a `safeharbor_token` cookie). -/
def middleware (pathname : String) (_hasTokenCookie : Bool) : MwAction :=
  if strStartsWith pathname "/_next" || strStartsWith pathname "/api"
      || strContainsChar pathname '.' then
    MwAction.next
  else if pathname = "/" || pathname = "/login" || pathname = "/register" then
    MwAction.redirect "/dashboard"
  else
    MwAction.next

/-! ## Helper lemmas about the Ledger Writer -/

theorem chainOk_extend (t : String) (r : AppendRequest) :
    ∀ (chain : List VaultEntry) (prev seq : Nat),
      chainOkFrom t prev seq chain →
      chainOkFrom t prev seq (chain ++
        [{ tenant_id := t
           sequence_number := seq + chain.length
           entry_type := r.entry_type
           canonical_payload := r.payload
           actor_id := r.actor
           created_at := r.timestamp
           previous_hash := some (lastHashD prev chain)
           entry_hash := entryHashOf t (seq + chain.length) r.entry_type
             r.payload r.actor r.timestamp (lastHashD prev chain) }]) := by
  intro chain
  induction chain with
  | nil =>
      intro prev seq _
      simp [chainOkFrom, lastHashD]
  | cons e rest ih =>
      intro prev seq h
      obtain ⟨h1, h2, h3, h4⟩ := h
      refine ⟨h1, h2, h3, ?_⟩
      have harith : seq + (e :: rest).length = (seq + 1) + rest.length := by
        simp [List.length_cons]; omega
      rw [harith]
      have hlast : lastHashD prev (e :: rest) = lastHashD e.entry_hash rest := rfl
      rw [hlast]
      exact ih e.entry_hash (seq + 1) h4

theorem WF_appendEntry (t : String) (r : AppendRequest)
    (chain : List VaultEntry) (h : WF t chain) :
    WF t (appendEntry t chain r) := by
  unfold WF appendEntry
  have harith : chain.length + 1 = 1 + chain.length := Nat.add_comm _ _
  simpa [harith] using chainOk_extend t r chain (genesisHash t) 1 h

theorem WF_buildChain_aux (t : String) :
    ∀ (reqs : List AppendRequest) (chain : List VaultEntry),
      WF t chain → WF t (reqs.foldl (appendEntry t) chain) := by
  intro reqs
  induction reqs with
  | nil => intro chain h; exact h
  | cons r rest ih =>
      intro chain h
      exact ih (appendEntry t chain r) (WF_appendEntry t r chain h)

theorem WF_buildChain (t : String) (reqs : List AppendRequest) :
    WF t (buildChain t reqs) :=
  WF_buildChain_aux t reqs [] trivial

theorem buildChain_length_aux (t : String) :
    ∀ (reqs : List AppendRequest) (chain : List VaultEntry),
      (reqs.foldl (appendEntry t) chain).length
        = chain.length + reqs.length := by
  intro reqs
  induction reqs with
  | nil => intro chain; simp
  | cons r rest ih =>
      intro chain
      rw [List.foldl_cons, ih (appendEntry t chain r)]
      simp [appendEntry]
      omega

theorem buildChain_length (t : String) (reqs : List AppendRequest) :
    (buildChain t reqs).length = reqs.length := by
  simpa using buildChain_length_aux t reqs []

theorem chainOk_head_genesis (t : String) (prev seq : Nat)
    (e : VaultEntry) (rest : List VaultEntry)
    (h : chainOkFrom t prev seq (e :: rest)) :
    e.previous_hash = some prev :=
  h.1

theorem chainOk_mem_prev_some (t : String) :
    ∀ (l : List VaultEntry) (prev seq : Nat), chainOkFrom t prev seq l →
      ∀ e ∈ l, e.previous_hash ≠ none := by
  intro l
  induction l with
  | nil => intro prev seq _ e he; cases he
  | cons a rest ih =>
      intro prev seq h e he
      obtain ⟨h1, _, _, h4⟩ := h
      cases he with
      | head => simp [h1]
      | tail _ hm => exact ih a.entry_hash (seq + 1) h4 e hm

theorem chainOk_get_zero (t : String) (l : List VaultEntry)
    (prev seq : Nat) (h : 0 < l.length) (hc : chainOkFrom t prev seq l) :
    (l.get ⟨0, h⟩).previous_hash = some prev := by
  cases l with
  | nil => simp at h
  | cons e rest => simpa using hc.1

theorem chainOk_get_link (t : String) :
    ∀ (l : List VaultEntry) (prev seq i : Nat)
      (h1 : i < l.length) (h2 : i + 1 < l.length),
      chainOkFrom t prev seq l →
      (l.get ⟨i + 1, h2⟩).previous_hash
        = some ((l.get ⟨i, h1⟩).entry_hash) := by
  intro l
  induction l with
  | nil => intro prev seq i h1 h2 _; simp at h1
  | cons a rest ih =>
      intro prev seq i h1 h2 h
      obtain ⟨_, _, _, h4⟩ := h
      cases i with
      | zero =>
          cases rest with
          | nil => simp at h2
          | cons b rest2 =>
              obtain ⟨hb, _, _, _⟩ := h4
              simpa using hb
      | succ j =>
          have hj1 : j < rest.length := by simp at h1; omega
          have hj2 : j + 1 < rest.length := by simp at h2; omega
          simpa using ih a.entry_hash (seq + 1) j hj1 hj2 h4

theorem chainOk_map_seq (t : String) :
    ∀ (l : List VaultEntry) (prev seq : Nat), chainOkFrom t prev seq l →
      l.map (fun e => e.sequence_number) = List.range' seq l.length := by
  intro l
  induction l with
  | nil => intro prev seq _; simp
  | cons a rest ih =>
      intro prev seq h
      obtain ⟨_, h2, _, h4⟩ := h
      simp [List.range'_succ, h2, ih a.entry_hash (seq + 1) h4]

theorem chainOk_verifyFrom (t : String) :
    ∀ (l : List VaultEntry) (prev seq c : Nat), chainOkFrom t prev seq l →
      verifyFrom t seq prev c l = ⟨true, c + l.length, none, none⟩ := by
  intro l
  induction l with
  | nil => intro prev seq c _; simp [verifyFrom]
  | cons a rest ih =>
      intro prev seq c h
      obtain ⟨h1, h2, h3, h4⟩ := h
      have hre : recomputeHash t a = a.entry_hash := by
        rw [h3]
        simp [recomputeHash, h1, h2]
      have hstep : verifyFrom t (seq + 1) a.entry_hash (c + 1) rest
          = ⟨true, (c + 1) + rest.length, none, none⟩ :=
        ih a.entry_hash (seq + 1) (c + 1) h4
      rw [verifyFrom]
      simp only [h1, h2, hre, ne_eq, not_true_eq_false, if_false, ite_false]
      rw [hstep]
      simp only [List.length_cons, VerifyResult.mk.injEq, true_and, and_true]
      omega

/-! ## Claim theorems -/

/-- Claim C1: in every persisted tenant chain, the entry at position 1 has
previous_hash equal to the tenant's genesis value, every entry at position
n > 1 has previous_hash equal to the entry_hash at position n - 1, and no
stored entry has an absent previous_hash. -/
theorem chain_linkage_invariant (t : String) (reqs : List AppendRequest) :
    (∀ h : 0 < (buildChain t reqs).length,
      ((buildChain t reqs).get ⟨0, h⟩).previous_hash
        = some (genesisHash t)) ∧
    (∀ (i : Nat) (h1 : i < (buildChain t reqs).length)
      (h2 : i + 1 < (buildChain t reqs).length),
      ((buildChain t reqs).get ⟨i + 1, h2⟩).previous_hash
        = some (((buildChain t reqs).get ⟨i, h1⟩).entry_hash)) ∧
    (∀ e ∈ buildChain t reqs, e.previous_hash ≠ none) := by
  have hwf := WF_buildChain t reqs
  refine ⟨?_, ?_, ?_⟩
  · intro h
    exact chainOk_get_zero t (buildChain t reqs) (genesisHash t) 1 h hwf
  · intro i h1 h2
    exact chainOk_get_link t (buildChain t reqs) (genesisHash t) 1 i h1 h2 hwf
  · exact chainOk_mem_prev_some t (buildChain t reqs) (genesisHash t) 1 hwf

/-- Witness for C1 on a concrete two-append chain. -/
theorem chain_linkage_invariant_witness :
    ((buildChain "acme" [⟨"calculation", "p1", "alice", 100⟩,
        ⟨"approval", "p2", "bob", 200⟩]).get ⟨0, by decide⟩).previous_hash
      = some (genesisHash "acme") ∧
    ((buildChain "acme" [⟨"calculation", "p1", "alice", 100⟩,
        ⟨"approval", "p2", "bob", 200⟩]).get ⟨1, by decide⟩).previous_hash
      = some (((buildChain "acme" [⟨"calculation", "p1", "alice", 100⟩,
          ⟨"approval", "p2", "bob", 200⟩]).get ⟨0, by decide⟩).entry_hash) :=
  ⟨(chain_linkage_invariant "acme" [⟨"calculation", "p1", "alice", 100⟩,
      ⟨"approval", "p2", "bob", 200⟩]).1 (by decide),
   (chain_linkage_invariant "acme" [⟨"calculation", "p1", "alice", 100⟩,
      ⟨"approval", "p2", "bob", 200⟩]).2.1 0 (by decide) (by decide)⟩

/-- Claim C2: after any N successful appends for one tenant, the stored
sequence numbers are exactly the contiguous ascending run 1, ..., N. -/
theorem sequence_numbers_contiguous (t : String) (reqs : List AppendRequest) :
    (buildChain t reqs).map (fun e => e.sequence_number)
      = List.range' 1 reqs.length := by
  have h := chainOk_map_seq t (buildChain t reqs) (genesisHash t) 1
    (WF_buildChain t reqs)
  rwa [buildChain_length t reqs] at h

/-- Claim C3: the verification walk checks each entry in the order sequence
continuity, previous-hash link, recomputed entry hash; it halts at the first
failing check and reports that entry's sequence number with break kind gap,
link, or mutation respectively, and the verify operation never modifies the
stored entries. -/
theorem verify_first_break (t : String) (expected running checked : Nat)
    (e : VaultEntry) (rest : List VaultEntry)
    (store : List VaultEntry) (fromSeq toSeq : Nat) :
    (e.sequence_number ≠ expected →
      verifyFrom t expected running checked (e :: rest)
        = ⟨false, checked, some e.sequence_number, some BreakKind.gap⟩) ∧
    (e.sequence_number = expected → e.previous_hash ≠ some running →
      verifyFrom t expected running checked (e :: rest)
        = ⟨false, checked, some e.sequence_number, some BreakKind.link⟩) ∧
    (e.sequence_number = expected → e.previous_hash = some running →
      recomputeHash t e ≠ e.entry_hash →
      verifyFrom t expected running checked (e :: rest)
        = ⟨false, checked, some e.sequence_number, some BreakKind.mutation⟩) ∧
    (e.sequence_number = expected → e.previous_hash = some running →
      recomputeHash t e = e.entry_hash →
      verifyFrom t expected running checked (e :: rest)
        = verifyFrom t (expected + 1) e.entry_hash (checked + 1) rest) ∧
    (verifyOp t store fromSeq toSeq).2 = store := by
  refine ⟨?_, ?_, ?_, ?_, rfl⟩
  · intro hgap
    rw [verifyFrom]
    simp [hgap]
  · intro hseq hlink
    rw [verifyFrom]
    simp [hseq, hlink]
  · intro hseq hlink hmut
    rw [verifyFrom]
    simp [hseq, hlink, hmut]
  · intro hseq hlink hok
    rw [verifyFrom]
    simp [hseq, hlink, hok]

/-- Witness for C3: a tampered entry at sequence 2 whose stored hash no
longer matches a recomputation is reported as a mutation break at 2
(the spec's concrete corruption scenario). -/
theorem verify_first_break_witness :
    verifyFrom "A" 2 5 1
      [{ tenant_id := "A", sequence_number := 2, entry_type := "approval"
         canonical_payload := "evil", actor_id := "mgr", created_at := 2
         previous_hash := some 5, entry_hash := 999 }]
      = ⟨false, 1, some 2, some BreakKind.mutation⟩ :=
  (verify_first_break "A" 2 5 1
    { tenant_id := "A", sequence_number := 2, entry_type := "approval"
      canonical_payload := "evil", actor_id := "mgr", created_at := 2
      previous_hash := some 5, entry_hash := 999 } [] [] 1 1).2.2.1
    rfl rfl (by decide)

/-- Claim C4: full-chain verification of an untampered chain of N appends
returns is_valid with N entries checked and no break reported. -/
theorem verify_untampered_chain (t : String) (reqs : List AppendRequest) :
    verifyChain t (buildChain t reqs)
      = ⟨true, reqs.length, none, none⟩ := by
  have h := chainOk_verifyFrom t (buildChain t reqs) (genesisHash t) 1 0
    (WF_buildChain t reqs)
  unfold verifyChain
  rw [h, buildChain_length t reqs]
  simp

/-- Claim C5: export always runs full-chain verification, still returns a
pack when that verification fails, and the pack's manifest records the
verification failure and its location instead of suppressing it. -/
theorem export_records_verification (t : String) (chain : List VaultEntry)
    (f : ExportFilter) (now : Nat) (who : String)
    (hfail : (verifyChain t chain).is_valid = false) :
    (exportPack t chain f now who).verification = verifyChain t chain ∧
    (exportPack t chain f now who).manifest.verification_valid = false ∧
    (exportPack t chain f now who).manifest.verification_break_sequence
      = (verifyChain t chain).first_break_sequence ∧
    (exportPack t chain f now who).manifest.verification_break_kind
      = (verifyChain t chain).break_kind :=
  ⟨rfl, hfail, rfl, rfl⟩

/-- Witness for C5: exporting a chain whose only entry carries sequence 2
(a gap) yields a pack whose manifest records the invalid verification and
its location. -/
theorem export_records_verification_witness :
    (exportPack "A"
      [{ tenant_id := "A", sequence_number := 2, entry_type := "approval"
         canonical_payload := "p", actor_id := "mgr", created_at := 7
         previous_hash := some 5, entry_hash := 999 }]
      ⟨none, none, none⟩ 0 "auditor").manifest.verification_valid = false ∧
    (exportPack "A"
      [{ tenant_id := "A", sequence_number := 2, entry_type := "approval"
         canonical_payload := "p", actor_id := "mgr", created_at := 7
         previous_hash := some 5, entry_hash := 999 }]
      ⟨none, none, none⟩ 0 "auditor").manifest.verification_break_sequence
      = some 2 :=
  ⟨(export_records_verification "A"
      [{ tenant_id := "A", sequence_number := 2, entry_type := "approval"
         canonical_payload := "p", actor_id := "mgr", created_at := 7
         previous_hash := some 5, entry_hash := 999 }]
      ⟨none, none, none⟩ 0 "auditor" (by decide)).2.1,
   ((export_records_verification "A"
      [{ tenant_id := "A", sequence_number := 2, entry_type := "approval"
         canonical_payload := "p", actor_id := "mgr", created_at := 7
         previous_hash := some 5, entry_hash := 999 }]
      ⟨none, none, none⟩ 0 "auditor" (by decide)).2.2.1).trans (by decide)⟩

/-- Claim C6: for a fixed chain state and filter, the manifest aggregate
hash of an export does not depend on the export call (its timestamp or
exporting identity), and equals the aggregate hash over the ordered list of
included entry hashes. -/
theorem export_deterministic (t : String) (chain : List VaultEntry)
    (f : ExportFilter) (now1 : Nat) (who1 : String)
    (now2 : Nat) (who2 : String) :
    (exportPack t chain f now1 who1).manifest.aggregate_hash
      = (exportPack t chain f now2 who2).manifest.aggregate_hash ∧
    (exportPack t chain f now1 who1).manifest.aggregate_hash
      = aggregateHash
          ((chain.filter (matchesFilter f)).map (fun e => e.entry_hash)) :=
  ⟨rfl, rfl⟩

/-! ## Helper lemmas about the Retention Manager -/

theorem evaluateRetention_point (now retention : Nat) (s : StoredEntry) :
    ((if (s.tier = StorageTier.hot) && eligibleForArchival now retention s
        then { s with tier := StorageTier.archived } else s) : StoredEntry).entry
      = s.entry := by
  split <;> rfl

theorem evaluateRetention_map_entry (now retention : Nat) :
    ∀ store : List StoredEntry,
      (evaluateRetention now retention store).map (fun s => s.entry)
        = store.map (fun s => s.entry) := by
  intro store
  induction store with
  | nil => rfl
  | cons s rest ih =>
      simp only [evaluateRetention, List.map_cons] at ih ⊢
      rw [evaluateRetention_point now retention s, ih]

theorem evaluateRetention_map_entryView (now retention : Nat) :
    ∀ store : List StoredEntry,
      (evaluateRetention now retention store).map entryView
        = store.map entryView := by
  intro store
  induction store with
  | nil => rfl
  | cons s rest ih =>
      simp only [evaluateRetention, List.map_cons] at ih ⊢
      have h : entryView (if (s.tier = StorageTier.hot) &&
          eligibleForArchival now retention s
          then { s with tier := StorageTier.archived } else s) = entryView s := by
        split <;> rfl
      rw [h, ih]

theorem evaluateRetention_length (now retention : Nat)
    (store : List StoredEntry) :
    (evaluateRetention now retention store).length = store.length := by
  simp [evaluateRetention]

/-- Claim C7: the eligibility computation never marks an entry under an
active legal hold as archival-eligible regardless of age; an entry without
a hold is eligible exactly when its creation timestamp plus the retention
period has elapsed; an ambiguous hold status fails closed (not eligible);
and the sweep touches only archival metadata, never entry content. -/
theorem retention_eligibility (now retention : Nat) (s : StoredEntry) :
    (s.legal_hold = some true →
      eligibleForArchival now retention s = false) ∧
    (s.legal_hold = some false →
      (eligibleForArchival now retention s = true ↔
        s.entry.created_at + retention ≤ now)) ∧
    (s.legal_hold = none →
      eligibleForArchival now retention s = false) ∧
    (∀ store : List StoredEntry,
      (evaluateRetention now retention store).map (fun u => u.entry)
        = store.map (fun u => u.entry)) := by
  refine ⟨?_, ?_, ?_, evaluateRetention_map_entry now retention⟩
  · intro h; simp [eligibleForArchival, h]
  · intro h; simp [eligibleForArchival, h]
  · intro h; simp [eligibleForArchival, h]

/-- Witness for C7: an entry far past the retention window but under a
legal hold is not eligible; the same entry without the hold is; with an
ambiguous hold it is not. -/
theorem retention_eligibility_witness :
    eligibleForArchival 1000 7
      ⟨{ tenant_id := "A", sequence_number := 1, entry_type := "calculation"
         canonical_payload := "p", actor_id := "sys", created_at := 0
         previous_hash := some 5, entry_hash := 9 },
       StorageTier.hot, some true⟩ = false ∧
    eligibleForArchival 1000 7
      ⟨{ tenant_id := "A", sequence_number := 1, entry_type := "calculation"
         canonical_payload := "p", actor_id := "sys", created_at := 0
         previous_hash := some 5, entry_hash := 9 },
       StorageTier.hot, some false⟩ = true ∧
    eligibleForArchival 1000 7
      ⟨{ tenant_id := "A", sequence_number := 1, entry_type := "calculation"
         canonical_payload := "p", actor_id := "sys", created_at := 0
         previous_hash := some 5, entry_hash := 9 },
       StorageTier.hot, none⟩ = false :=
  ⟨(retention_eligibility 1000 7
      ⟨{ tenant_id := "A", sequence_number := 1, entry_type := "calculation"
         canonical_payload := "p", actor_id := "sys", created_at := 0
         previous_hash := some 5, entry_hash := 9 },
       StorageTier.hot, some true⟩).1 rfl,
   ((retention_eligibility 1000 7
      ⟨{ tenant_id := "A", sequence_number := 1, entry_type := "calculation"
         canonical_payload := "p", actor_id := "sys", created_at := 0
         previous_hash := some 5, entry_hash := 9 },
       StorageTier.hot, some false⟩).2.1 rfl).mpr (by decide),
   (retention_eligibility 1000 7
      ⟨{ tenant_id := "A", sequence_number := 1, entry_type := "calculation"
         canonical_payload := "p", actor_id := "sys", created_at := 0
         previous_hash := some 5, entry_hash := 9 },
       StorageTier.hot, none⟩).2.2.1 rfl⟩

/-- Claim C8: any number of retention evaluation runs leaves every entry's
canonical payload, entry hash, previous hash and sequence number unchanged
and removes no entry from the chain. -/
theorem retention_frame (now retention k : Nat) (store : List StoredEntry) :
    ((evaluateRetention now retention)^[k] store).map entryView
      = store.map entryView ∧
    ((evaluateRetention now retention)^[k] store).length = store.length := by
  induction k with
  | zero => exact ⟨rfl, rfl⟩
  | succ n ih =>
      rw [Function.iterate_succ_apply']
      exact ⟨(evaluateRetention_map_entryView now retention _).trans ih.1,
        (evaluateRetention_length now retention _).trans ih.2⟩

/-- Claim C9: on a 401 response the client removes the stored
`safeharbor_token` and throws "Authentication required" without reading the
body; on any other non-ok response the token is untouched and the thrown
message is the body's non-empty `detail`, or `API error: <status>` when the
body is not JSON or carries no (non-empty) detail. -/
theorem api_request_error_handling (st : ClientState) (resp : HttpResponse) :
    (resp.status = 401 →
      (requestStep st resp).1
          = RequestOutcome.failure "Authentication required" ∧
      (st.windowDefined = true → (requestStep st resp).2.1.token = none) ∧
      (requestStep st resp).2.2 = false) ∧
    (resp.status ≠ 401 → respOk resp = false →
      ((requestStep st resp).2.1 = st ∧
       (∀ d : String, resp.bodyIsJson = true → resp.bodyDetail = some d →
         d ≠ "" → (requestStep st resp).1 = RequestOutcome.failure d) ∧
       ((resp.bodyIsJson = false ∨ resp.bodyDetail = none ∨
           resp.bodyDetail = some "") →
         (requestStep st resp).1
           = RequestOutcome.failure ("API error: " ++ toString resp.status)))) := by
  constructor
  · intro h401
    refine ⟨by simp [requestStep, h401], ?_, by simp [requestStep, h401]⟩
    intro hw
    simp [requestStep, h401, hw]
  · intro hne hok
    refine ⟨by simp [requestStep, hne, hok], ?_, ?_⟩
    · intro d hj hd hne'
      simp [requestStep, hne, hok, hj, hd, hne']
    · intro hcase
      rcases hcase with hj | hd | hd
      · simp [requestStep, hne, hok, hj]
      · cases hj : resp.bodyIsJson <;> simp [requestStep, hne, hok, hj, hd]
      · cases hj : resp.bodyIsJson <;> simp [requestStep, hne, hok, hj, hd]

/-- Witness for C9: a concrete 401 response clears the stored token, throws
the fixed message and never reads the body; a concrete 500 response with a
detail throws that detail and keeps the token. -/
theorem api_request_error_handling_witness :
    (requestStep ⟨true, some "tok"⟩ ⟨401, false, none⟩).1
        = RequestOutcome.failure "Authentication required" ∧
    (requestStep ⟨true, some "tok"⟩ ⟨401, false, none⟩).2.1.token = none ∧
    (requestStep ⟨true, some "tok"⟩ ⟨401, false, none⟩).2.2 = false ∧
    (requestStep ⟨true, some "tok"⟩ ⟨500, true, some "boom"⟩).2.1
        = ⟨true, some "tok"⟩ ∧
    (requestStep ⟨true, some "tok"⟩ ⟨500, true, some "boom"⟩).1
        = RequestOutcome.failure "boom" :=
  ⟨((api_request_error_handling ⟨true, some "tok"⟩ ⟨401, false, none⟩).1
      rfl).1,
   (((api_request_error_handling ⟨true, some "tok"⟩ ⟨401, false, none⟩).1
      rfl).2.1) rfl,
   ((api_request_error_handling ⟨true, some "tok"⟩ ⟨401, false, none⟩).1
      rfl).2.2,
   ((api_request_error_handling ⟨true, some "tok"⟩ ⟨500, true, some "boom"⟩).2
      (by decide) (by decide)).1,
   (((api_request_error_handling ⟨true, some "tok"⟩
      ⟨500, true, some "boom"⟩).2 (by decide) (by decide)).2.1) "boom" rfl rfl
      (by decide)⟩

/-- Claim C10 as stated is false on src/frontend/src/middleware.ts: with no
token cookie, a request for `/` is redirected to `/dashboard`, not
`/login`, and `/login` itself is redirected rather than passed through. -/
theorem middleware_claim_counterexample :
    middleware "/" false = MwAction.redirect "/dashboard" ∧
    MwAction.redirect "/dashboard" ≠ MwAction.redirect "/login" ∧
    middleware "/login" false ≠ MwAction.next := by
  refine ⟨by decide, by decide, by decide⟩

/-- Claim C10 amended: the middleware never consults the token cookie; it
redirects `/`, `/login` and `/register` to `/dashboard`; every path that
starts with `/_next` or `/api` or contains a `.` passes through unmodified,
as does every other path. -/
theorem middleware_behavior (p : String) (c c2 : Bool) :
    (strStartsWith p "/_next" = true ∨ strStartsWith p "/api" = true ∨
        strContainsChar p '.' = true →
      middleware p c = MwAction.next) ∧
    (strStartsWith p "/_next" = false → strStartsWith p "/api" = false →
      strContainsChar p '.' = false →
      ((p = "/" ∨ p = "/login" ∨ p = "/register" →
         middleware p c = MwAction.redirect "/dashboard") ∧
       (p ≠ "/" → p ≠ "/login" → p ≠ "/register" →
         middleware p c = MwAction.next))) ∧
    middleware p c = middleware p c2 := by
  refine ⟨?_, ?_, rfl⟩
  · intro h
    rcases h with h | h | h <;> simp [middleware, h]
  · intro h1 h2 h3
    constructor
    · intro h
      rcases h with h | h | h <;> subst h <;> simp [middleware, h1, h2, h3]
    · intro d1 d2 d3
      simp [middleware, h1, h2, h3, d1, d2, d3]

/-- Witness for C10 amended: concrete paths — `/_next/static/x` passes
through, `/` is redirected to `/dashboard`, `/dashboard` passes through. -/
theorem middleware_behavior_witness :
    middleware "/_next/static/x" true = MwAction.next ∧
    middleware "/" true = MwAction.redirect "/dashboard" ∧
    middleware "/dashboard" true = MwAction.next :=
  ⟨(middleware_behavior "/_next/static/x" true true).1 (Or.inl (by decide)),
   ((middleware_behavior "/" true true).2.1 (by decide) (by decide)
      (by decide)).1 (Or.inl rfl),
   ((middleware_behavior "/dashboard" true true).2.1 (by decide) (by decide)
      (by decide)).2 (by decide) (by decide) (by decide)⟩

end SafeHarbor
